import Mathlib

/-!
Verification of the Adaptive Progress & Achievement Engine.

This file gives a shallow embedding of the progress/achievement core of the
EduTech learning platform (`utils/enhanced_stats.py`, `utils/achievements.py`,
`components/adaptive_practice.py`, constants from `config/app_settings.py`)
and proves or refutes the specified properties.

Modelling conventions:
* Python floats are modelled as rationals (`ℚ`); no comparison appearing in
  the verified properties is sensitive to binary rounding.
* Calendar dates are day numbers (`ℤ`); `datetime.now().date()` becomes an
  explicit `today` parameter.
* Python dicts keyed by subject are association lists preserving insertion
  order; the per-user stats dict becomes the structure `UserStats`.
* Exceptions that the source raises and catches are modelled by the explicit
  control flow they produce: `_check_milestone_achievements` references an
  undefined name `achievement` in the milestone constructor, so reaching a due
  milestone raises `NameError`, which `award_achievement` catches, returning
  `False` with all mutations made before the raise retained.  Likewise
  `int((xp/100) ** 0.5)` fails for negative `xp` (complex result), which
  `update_stats` catches, leaving the level block without effect.
-/

namespace Edutech

/-- Per-subject statistics record (the per-subject entry of `subject_stats` in
`enhanced_stats.py`). -/
structure SubjStat where
  total_problems : ℕ := 0
  correct_problems : ℕ := 0
  total_points : ℚ := 0
  accuracy : ℚ := 0
  time_spent : ℚ := 0
  level : ℕ := 1
  mastery_progress : ℚ := 0
  deriving Repr, DecidableEq

/-- One entry of the `recent_sessions` list (`_update_session_stats`). -/
structure SessionRec where
  duration : ℚ := 0
  problems : ℕ := 0
  points_earned : ℚ := 0
  deriving Repr, DecidableEq

/-- A learning-activity event, as passed to
`EnhancedStatsManager.update_stats(user_id, activity_type, **kwargs)`.
`Option` fields model keyword arguments that may be absent (`data.get`).
`other` stands for any activity type with no dedicated handler (for example
`chat_interaction`), which only triggers the generic part of `update_stats`. -/
inductive Event where
  | problemSolved (subject : Option String) (correct : Option Bool)
      (difficulty : Option String)
  | sessionCompleted (subject : Option String) (duration : ℚ)
      (problems : ℕ) (points_earned : ℚ)
  | studyTime (time_spent : ℚ)
  | login
  | other
  deriving Repr, DecidableEq

/-- The per-user statistics dictionary created by
`EnhancedStatsManager._initialize_user_stats`.  Fields that no modelled
operation ever reads or writes (goals, predictive placeholders, display
preferences) are omitted. -/
structure UserStats where
  overall_progress : ℚ := 0
  total_points : ℚ := 0
  level : ℕ := 1
  experience_points : ℚ := 0
  study_streak : ℕ := 0
  study_time_today : ℚ := 0
  total_study_time : ℚ := 0
  average_session_time : ℚ := 0
  last_activity_date : Option ℤ := none
  sessions_completed : ℕ := 0
  problems_solved : ℕ := 0
  problems_correct : ℕ := 0
  accuracy_rate : ℚ := 0
  improvement_rate : ℚ := 0
  achievements : ℕ := 0
  badges : List String := []
  subject_stats : List (String × SubjStat) := []
  favorite_subjects : List String := []
  weak_areas : List String := []
  login_streak : ℕ := 0
  consistency_score : ℚ := 0
  learning_velocity : ℚ := 0
  recent_sessions : List SessionRec := []
  recent_achievements : List String := []
  activity_history : List Event := []
  deriving Repr, DecidableEq

/-- Fresh zero-valued state (`_initialize_user_stats`). -/
def initUserStats : UserStats := {}

/-- Table `points_per_problem` of `PROGRESS_SETTINGS` with the
`.get(difficulty, 2)` fallback (`app_settings.py`). -/
def pointsPerProblem (difficulty : String) : ℚ :=
  if difficulty = "Beginner" then 2
  else if difficulty = "Intermediate" then 4
  else if difficulty = "Advanced" then 6
  else if difficulty = "Expert" then 8
  else 2

/-- Setting `streak_bonus_multiplier = 1.5` of `PROGRESS_SETTINGS`. -/
def streakBonusMultiplier : ℚ := 3 / 2

/-- Setting `accuracy_bonus_threshold = 0.8` of `PROGRESS_SETTINGS`. -/
def accuracyBonusThreshold : ℚ := 4 / 5

/-- Setting of 10 points per hour in `PROGRESS_SETTINGS`. -/
def timePointsPerHour : ℚ := 10

/-- Setting `max_daily_points = 200` of `PROGRESS_SETTINGS`. -/
def maxDailyPoints : ℚ := 200

/-- Python `if len(l) > n: l = l[-n:]` truncation used for activity history,
recent sessions and recent achievements. -/
def capList (n : ℕ) (l : List α) : List α :=
  if n < l.length then l.drop (l.length - n) else l

/-- The static `ACHIEVEMENTS` dict from `app_settings.py`, reduced to the
points of each id (the only field the modelled state ever consumes), as an
insertion-ordered association list. -/
def achievementTable : List (String × ℚ) :=
  [("first_login", 10), ("assessment_complete", 25), ("first_practice", 15),
   ("problem_solver_10", 50), ("problem_solver_50", 150), ("streak_7", 100),
   ("streak_30", 500), ("progress_25", 75), ("progress_50", 150),
   ("progress_75", 250), ("progress_100", 1000), ("tutor_favorite", 75),
   ("session_milestone_5", 50), ("session_milestone_25", 200),
   ("early_bird", 30), ("night_owl", 30)]

/-- Dict lookup `self.achievements[achievement_id]`; `none` means the id is
not in the table (`achievement_id not in self.achievements`). -/
def achievementPoints (aid : String) : Option ℚ :=
  (achievementTable.find? fun p => p.1 == aid).map Prod.snd

/-- The `milestone_achievements` table in
`AchievementManager._check_milestone_achievements`. -/
def milestoneThresholds : List (ℕ × String) :=
  [(5, "achievement_collector"), (10, "badge_hunter"),
   (20, "achievement_master"), (50, "legendary_achiever")]

/-- Method `_check_milestone_achievements` iterates `milestone_achievements`; for the
first due milestone it builds the dynamic achievement dict, whose name field
reads the undefined variable `achievement`, raising `NameError`.  So the call
raises exactly when some threshold is reached by the badge count while
the milestone id is not yet a badge; otherwise it returns having changed
nothing. -/
def milestoneRaises (badges : List String) : Bool :=
  milestoneThresholds.any fun p => decide (p.1 ≤ badges.length ∧ p.2 ∉ badges)

/-- Method `AchievementManager.award_achievement`.  Returns the updated stats and the
boolean result.  The milestone check runs after the badge append and point
awards; if it raises, the `except` clause returns `False`, but the in-place
mutations already made are retained. -/
def awardAchievement (stats : UserStats) (aid : String) : UserStats × Bool :=
  match achievementPoints aid with
  | none => (stats, false)
  | some pts =>
    if aid ∈ stats.badges then (stats, false)
    else
      let badges1 := stats.badges ++ [aid]
      let stats1 : UserStats :=
        { stats with
          badges := badges1
          achievements := badges1.length
          total_points := stats.total_points + pts
          experience_points := stats.experience_points + pts
          recent_achievements := capList 10 (stats.recent_achievements ++ [aid]) }
      if milestoneRaises stats1.badges then (stats1, false) else (stats1, true)

/-- Modelled from the spec: the variant of `award_achievement` that the spec
describes, in which the milestone predicate is evaluated against the badge-set
snapshot taken before the current pass, so the badge unlocked in this call
does not count toward the milestone threshold.  Used only to compare with the
source function `awardAchievement`. -/
def awardAchievementSpecPrePass (stats : UserStats) (aid : String) :
    UserStats × Bool :=
  match achievementPoints aid with
  | none => (stats, false)
  | some pts =>
    if aid ∈ stats.badges then (stats, false)
    else
      let badges1 := stats.badges ++ [aid]
      let stats1 : UserStats :=
        { stats with
          badges := badges1
          achievements := badges1.length
          total_points := stats.total_points + pts
          experience_points := stats.experience_points + pts
          recent_achievements := capList 10 (stats.recent_achievements ++ [aid]) }
      if milestoneRaises stats.badges then (stats1, false) else (stats1, true)

/-- The `achievement_checks` list in
`EnhancedStatsManager._check_achievements`. -/
def achievementChecks : List (String × (UserStats → Bool)) :=
  [("problem_solver_10", fun s => decide (10 ≤ s.problems_solved)),
   ("problem_solver_50", fun s => decide (50 ≤ s.problems_solved)),
   ("streak_7", fun s => decide (7 ≤ s.study_streak)),
   ("streak_30", fun s => decide (30 ≤ s.study_streak)),
   ("progress_25", fun s => decide ((25 : ℚ) ≤ s.overall_progress)),
   ("progress_50", fun s => decide ((50 : ℚ) ≤ s.overall_progress)),
   ("progress_75", fun s => decide ((75 : ℚ) ≤ s.overall_progress)),
   ("progress_100", fun s => decide ((100 : ℚ) ≤ s.overall_progress)),
   ("session_milestone_5", fun s => decide (5 ≤ s.sessions_completed)),
   ("session_milestone_25", fun s => decide (25 ≤ s.sessions_completed))]

/-- Loop body of `_check_achievements`: award when the id is not yet a badge
and the condition holds, and record the id in the returned list (the result of
`award_achievement` is ignored by the source). -/
def checkStep (acc : UserStats × List String)
    (c : String × (UserStats → Bool)) : UserStats × List String :=
  if c.1 ∉ acc.1.badges ∧ c.2 acc.1 = true then
    ((awardAchievement acc.1 c.1).1, acc.2 ++ [c.1])
  else acc

/-- Method `EnhancedStatsManager._check_achievements`: fold the checks in table
order, returning the updated stats and the list of newly found achievement
ids. -/
def checkAchievements (stats : UserStats) : UserStats × List String :=
  achievementChecks.foldl checkStep (stats, [])

/-- Method `EnhancedStatsManager._update_subject_stats`. -/
def updateSubjectStats (stats : UserStats) (subject : String) (points : ℚ)
    (correct : Bool) : UserStats :=
  let ss0 :=
    if stats.subject_stats.any (fun p => p.1 = subject) then stats.subject_stats
    else stats.subject_stats ++ [(subject, ({} : SubjStat))]
  let ss1 := ss0.map fun p =>
    if p.1 = subject then
      let e := p.2
      let tot := e.total_problems + 1
      let corr := e.correct_problems + (if correct then 1 else 0)
      let pts := e.total_points + points
      (subject,
        { e with
          total_problems := tot
          correct_problems := corr
          total_points := pts
          accuracy := ((corr : ℚ) / (tot : ℚ)) * 100
          mastery_progress := min 100 (pts / 10) })
    else p
  let sorted := ss1.mergeSort fun a b => decide (b.2.total_points ≤ a.2.total_points)
  { stats with
    subject_stats := ss1
    favorite_subjects := (sorted.map Prod.fst).take 3
    weak_areas := ((ss1.filter fun p =>
        decide (p.2.accuracy < 60 ∧ 5 ≤ p.2.total_problems)).map Prod.fst) }

/-- The points awarded by `_update_problem_stats`: base points for the
difficulty (default Beginner), times `1.2` when the just-recomputed
accuracy rate reaches the bonus threshold, times `1.5` when the study streak
is at least 7. -/
def problemPointsAwarded (stats : UserStats) (correct : Option Bool)
    (difficulty : Option String) : ℚ :=
  let isCorrect := correct.getD false
  let solved := stats.problems_solved + 1
  let corr := stats.problems_correct + (if isCorrect then 1 else 0)
  let acc := ((corr : ℚ) / (solved : ℚ)) * 100
  let base := pointsPerProblem (difficulty.getD "Beginner")
  let p1 := if accuracyBonusThreshold * 100 ≤ acc then base * (6 / 5) else base
  if 7 ≤ stats.study_streak then p1 * streakBonusMultiplier else p1

/-- Method `EnhancedStatsManager._update_problem_stats`.  Note that the accuracy rate
is recomputed before the bonus test, and that a missing or empty subject
(Python falsiness of the subject keyword argument) skips the subject update. -/
def updateProblemStats (stats : UserStats) (subject : Option String)
    (correct : Option Bool) (difficulty : Option String) : UserStats :=
  let isCorrect := correct.getD false
  let solved := stats.problems_solved + 1
  let corr := stats.problems_correct + (if isCorrect then 1 else 0)
  let acc := ((corr : ℚ) / (solved : ℚ)) * 100
  let p2 := problemPointsAwarded stats correct difficulty
  let stats1 :=
    { stats with
      problems_solved := solved
      problems_correct := corr
      accuracy_rate := acc
      total_points := stats.total_points + p2
      experience_points := stats.experience_points + p2 }
  match subject with
  | some subj => if subj = "" then stats1 else updateSubjectStats stats1 subj p2 isCorrect
  | none => stats1

/-- Method `EnhancedStatsManager._update_session_stats`. -/
def updateSessionStats (stats : UserStats) (duration : ℚ) (problems : ℕ)
    (points_earned : ℚ) : UserStats :=
  let sessions := capList 20 (stats.recent_sessions ++
    [{ duration := duration, problems := problems, points_earned := points_earned }])
  { stats with
    sessions_completed := stats.sessions_completed + 1
    recent_sessions := sessions
    average_session_time := (sessions.map SessionRec.duration).sum / (sessions.length : ℚ) }

/-- Method `EnhancedStatsManager._update_time_stats`: the cap is applied to the
points of this single call. -/
def updateTimeStats (stats : UserStats) (time_spent : ℚ) : UserStats :=
  { stats with
    study_time_today := stats.study_time_today + time_spent
    total_study_time := stats.total_study_time + time_spent
    total_points := stats.total_points +
      min (time_spent * timePointsPerHour) maxDailyPoints }

/-- Method `EnhancedStatsManager._update_login_stats` (reads the
`last_activity_date` already overwritten by `update_stats`). -/
def updateLoginStats (stats : UserStats) (today : ℤ) : UserStats :=
  if stats.last_activity_date = some (today - 1) then
    { stats with login_streak := stats.login_streak + 1 }
  else if stats.last_activity_date ≠ some today then
    { stats with login_streak := 1 }
  else stats

/-- Method `EnhancedStatsManager._calculate_derived_metrics`. -/
def calculateDerivedMetrics (stats : UserStats) : UserStats :=
  let velocity :=
    if 0 < stats.total_study_time then stats.total_points / stats.total_study_time
    else stats.learning_velocity
  let consistency :=
    (min ((stats.study_streak : ℚ) / 30) 1 + min ((stats.login_streak : ℚ) / 30) 1 +
      min ((stats.sessions_completed : ℚ) / 100) 1) / 3 * 100
  let overall :=
    (min (stats.total_points / 1000) 1 + min ((stats.problems_solved : ℚ) / 100) 1 +
      stats.accuracy_rate / 100 + min ((stats.sessions_completed : ℚ) / 50) 1) / 4 * 100
  let improvement :=
    if 10 ≤ stats.recent_sessions.length then
      stats.accuracy_rate - stats.accuracy_rate * (9 / 10)
    else stats.improvement_rate
  { stats with
    learning_velocity := velocity
    consistency_score := consistency
    overall_progress := overall
    improvement_rate := improvement }

/-- Method `EnhancedStatsManager._update_streaks`. -/
def updateStreaks (stats : UserStats) (today : ℤ) : UserStats :=
  match stats.last_activity_date with
  | none => { stats with study_streak := 1 }
  | some d =>
    if d = today then stats
    else if d = today - 1 then { stats with study_streak := stats.study_streak + 1 }
    else { stats with study_streak := 1 }

/-- Level formula `int((xp/100) ** 0.5) + 1` for nonnegative `xp`: the floor of the square
root commutes with the outer floor, so it equals `Nat.sqrt ⌊xp/100⌋ + 1`. -/
def levelFromXP (xp : ℚ) : ℕ := Nat.sqrt (⌊xp / 100⌋).toNat + 1

/-- Method `EnhancedStatsManager._update_level_and_experience`.  For negative
experience points the Python expression `(xp/100) ** 0.5` produces a complex
number and `int` raises, the exception being caught in `update_stats`; the
function then has no effect. -/
def updateLevelAndExperience (stats : UserStats) : UserStats :=
  if stats.experience_points < 0 then stats
  else
    let newLevel := levelFromXP stats.experience_points
    if stats.level < newLevel then
      let stats1 := { stats with level := newLevel }
      if "level_up" ∈ stats1.badges then stats1
      else
        { stats1 with
          badges := stats1.badges ++ ["level_up"]
          achievements := stats1.achievements + 1 }
    else stats

/-- Method `EnhancedStatsManager.update_stats`: overwrite `last_activity_date` with
today, append to the capped activity history, dispatch on the activity type,
recompute derived metrics, check achievements, update streaks, and update the
level.  The `today` parameter stands for `datetime.now().date()`. -/
def updateStats (stats : UserStats) (today : ℤ) (ev : Event) : UserStats :=
  let stats1 :=
    { stats with
      last_activity_date := some today
      activity_history := capList 100 (stats.activity_history ++ [ev]) }
  let stats2 :=
    match ev with
    | .problemSolved subject correct difficulty =>
        updateProblemStats stats1 subject correct difficulty
    | .sessionCompleted _ duration problems pts =>
        updateSessionStats stats1 duration problems pts
    | .studyTime t => updateTimeStats stats1 t
    | .login => updateLoginStats stats1 today
    | .other => stats1
  let stats3 := calculateDerivedMetrics stats2
  let stats4 := (checkAchievements stats3).1
  let stats5 := updateStreaks stats4 today
  updateLevelAndExperience stats5

/-- Apply a sequence of dated events in order. -/
def applyEvents (stats : UserStats) (l : List (ℤ × Event)) : UserStats :=
  l.foldl (fun acc p => updateStats acc p.1 p.2) stats

/-- Event validity in the sense of the monotonic-progress property of the spec:
one of the three claimed event kinds, with nonnegative durations. -/
def validProgressEvent : Event → Prop
  | .problemSolved _ _ _ => True
  | .sessionCompleted _ d _ _ => 0 ≤ d
  | .studyTime t => 0 ≤ t
  | .login => False
  | .other => False

/-- One entry of the `difficulty_history` list in
`AdaptivePractice._process_adaptive_answer`. -/
structure HistoryEntry where
  problem_number : ℕ
  difficulty : String
  correct : Bool
  deriving Repr, DecidableEq

/-- The `st.session_state.adaptive_session` dict of
`AdaptivePractice._adaptive_practice_session` (fields the answer-processing
path reads or writes). -/
structure AdaptiveSession where
  problems_attempted : ℕ := 0
  problems_correct : ℕ := 0
  current_difficulty : String := "Beginner"
  difficulty_history : List HistoryEntry := []
  adaptive_adjustments : ℕ := 0
  deriving Repr, DecidableEq

/-- Method `AdaptivePractice._get_next_difficulty`. -/
def nextDifficulty (current : String) : String :=
  if current = "Beginner" then "Intermediate"
  else if current = "Intermediate" then "Advanced"
  else if current = "Advanced" then "Advanced"
  else "Intermediate"

/-- Method `AdaptivePractice._get_previous_difficulty`. -/
def prevDifficulty (current : String) : String :=
  if current = "Beginner" then "Beginner"
  else if current = "Intermediate" then "Beginner"
  else if current = "Advanced" then "Intermediate"
  else "Beginner"

/-- Method `AdaptivePractice._should_increase_difficulty`: reads the already
incremented attempt counter and the last three entries of the history as
recorded so far (the current outcome has not yet been appended). -/
def shouldIncreaseDifficulty (s : AdaptiveSession) : Bool :=
  if s.problems_attempted < 3 then false
  else
    let recent := s.difficulty_history.drop (s.difficulty_history.length - 3)
    decide (3 ≤ (recent.filter (·.correct)).length)

/-- Method `AdaptivePractice._should_decrease_difficulty`. -/
def shouldDecreaseDifficulty (s : AdaptiveSession) : Bool :=
  if s.problems_attempted < 3 then false
  else
    let recent := s.difficulty_history.drop (s.difficulty_history.length - 3)
    decide (2 ≤ (recent.filter (fun e => !e.correct)).length)

/-- Method `AdaptivePractice._process_adaptive_answer`, restricted to the session
state (the per-user stats update it triggers on a correct answer lives in
`updateStats`).  The history entry for the current outcome is appended only
after the adjustment decision. -/
def processAdaptiveAnswer (s : AdaptiveSession) (isCorrect : Bool) :
    AdaptiveSession :=
  let s1 := { s with problems_attempted := s.problems_attempted + 1 }
  let s2 :=
    if isCorrect then
      let sc := { s1 with problems_correct := s1.problems_correct + 1 }
      if shouldIncreaseDifficulty sc then
        { sc with
          current_difficulty := nextDifficulty sc.current_difficulty
          adaptive_adjustments := sc.adaptive_adjustments + 1 }
      else sc
    else
      if shouldDecreaseDifficulty s1 then
        { s1 with
          current_difficulty := prevDifficulty s1.current_difficulty
          adaptive_adjustments := s1.adaptive_adjustments + 1 }
      else s1
  { s2 with
    difficulty_history := s2.difficulty_history ++
      [{ problem_number := s2.problems_attempted
         difficulty := s2.current_difficulty
         correct := isCorrect }] }

/-- Record a list of outcomes in order in one adaptive session. -/
def recordOutcomes (s : AdaptiveSession) : List Bool → AdaptiveSession
  | [] => s
  | b :: rest => recordOutcomes (processAdaptiveAnswer s b) rest

/-- The fields read by the achievement-check conditions. -/
def condFields (s : UserStats) : ℕ × ℕ × ℚ × ℕ :=
  (s.problems_solved, s.study_streak, s.overall_progress, s.sessions_completed)

/-- Every achievement id in the static table has nonnegative points. -/
theorem achievementPoints_nonneg (a : String) (pts : ℚ)
    (h : achievementPoints a = some pts) : 0 ≤ pts := by
  unfold achievementPoints at h
  rcases hf : achievementTable.find? (fun p => p.1 == a) with _ | p
  · simp [hf] at h
  · have hmem := List.mem_of_find?_eq_some hf
    have hall : ∀ q ∈ achievementTable, (0 : ℚ) ≤ q.2 := by with_unfolding_all decide
    simp [hf] at h
    exact h ▸ hall p hmem

/-- Function `award_achievement` leaves every statistic that the achievement conditions
and analytics read untouched, apart from points, badges and the achievement
records. -/
theorem awardAchievement_frame (s : UserStats) (a : String) :
    (awardAchievement s a).1.problems_solved = s.problems_solved ∧
    (awardAchievement s a).1.problems_correct = s.problems_correct ∧
    (awardAchievement s a).1.accuracy_rate = s.accuracy_rate ∧
    (awardAchievement s a).1.study_streak = s.study_streak ∧
    (awardAchievement s a).1.sessions_completed = s.sessions_completed ∧
    (awardAchievement s a).1.overall_progress = s.overall_progress ∧
    (awardAchievement s a).1.level = s.level ∧
    (awardAchievement s a).1.last_activity_date = s.last_activity_date ∧
    (awardAchievement s a).1.study_time_today = s.study_time_today ∧
    (awardAchievement s a).1.total_study_time = s.total_study_time := by
  rcases h : achievementPoints a with _ | pts
  · simp [awardAchievement, h]
  · simp only [awardAchievement, h]
    split_ifs <;> simp

/-- Function `award_achievement` never decreases the point counters. -/
theorem awardAchievement_points_mono (s : UserStats) (a : String) :
    s.total_points ≤ (awardAchievement s a).1.total_points ∧
    s.experience_points ≤ (awardAchievement s a).1.experience_points := by
  rcases h : achievementPoints a with _ | pts
  · simp [awardAchievement, h]
  · have hpts := achievementPoints_nonneg a pts h
    simp only [awardAchievement, h]
    split_ifs <;> simp [hpts]

/-- Function `award_achievement` either leaves the badge list unchanged or appends
exactly the new id, and only when it was absent. -/
theorem awardAchievement_badges (s : UserStats) (a : String) :
    (awardAchievement s a).1.badges = s.badges ∨
    ((awardAchievement s a).1.badges = s.badges ++ [a] ∧ a ∉ s.badges) := by
  rcases h : achievementPoints a with _ | pts
  · simp [awardAchievement, h]
  · by_cases hmem : a ∈ s.badges
    · simp [awardAchievement, h, hmem]
    · right
      refine ⟨?_, hmem⟩
      simp only [awardAchievement, h, if_neg hmem]
      split_ifs <;> simp

/-- When the id is in the registry and not yet earned, the badge is appended
even if the subsequent milestone check raises. -/
theorem awardAchievement_badges_append (s : UserStats) (a : String) (pts : ℚ)
    (h1 : achievementPoints a = some pts) (h2 : a ∉ s.badges) :
    (awardAchievement s a).1.badges = s.badges ++ [a] := by
  simp only [awardAchievement, h1]
  split_ifs <;> simp_all

/-- Badge-list membership survives `award_achievement`. -/
theorem awardAchievement_badges_mem (s : UserStats) (a x : String)
    (h : x ∈ s.badges) : x ∈ (awardAchievement s a).1.badges := by
  rcases awardAchievement_badges s a with hb | ⟨hb, _⟩ <;> simp [hb, h]

/-- Function `award_achievement` preserves distinctness of the badge list. -/
theorem awardAchievement_badges_nodup (s : UserStats) (a : String)
    (h : s.badges.Nodup) : (awardAchievement s a).1.badges.Nodup := by
  rcases awardAchievement_badges s a with hb | ⟨hb, hmem⟩
  · simpa [hb] using h
  · simp [hb, List.nodup_append, h, hmem]

/-- Each step of the `_check_achievements` loop either does nothing or
performs one award while recording the id. -/
theorem checkStep_cases (acc : UserStats × List String)
    (c : String × (UserStats → Bool)) :
    checkStep acc c = acc ∨
    checkStep acc c = ((awardAchievement acc.1 c.1).1, acc.2 ++ [c.1]) := by
  unfold checkStep
  split_ifs <;> simp

/-- The `_check_achievements` loop leaves all statistics other than points,
badges and achievement records untouched. -/
theorem checkFold_frame (L : List (String × (UserStats → Bool)))
    (acc : UserStats × List String) :
    (L.foldl checkStep acc).1.problems_solved = acc.1.problems_solved ∧
    (L.foldl checkStep acc).1.problems_correct = acc.1.problems_correct ∧
    (L.foldl checkStep acc).1.accuracy_rate = acc.1.accuracy_rate ∧
    (L.foldl checkStep acc).1.study_streak = acc.1.study_streak ∧
    (L.foldl checkStep acc).1.sessions_completed = acc.1.sessions_completed ∧
    (L.foldl checkStep acc).1.overall_progress = acc.1.overall_progress ∧
    (L.foldl checkStep acc).1.level = acc.1.level ∧
    (L.foldl checkStep acc).1.last_activity_date = acc.1.last_activity_date ∧
    (L.foldl checkStep acc).1.study_time_today = acc.1.study_time_today ∧
    (L.foldl checkStep acc).1.total_study_time = acc.1.total_study_time := by
  induction L generalizing acc with
  | nil => simp
  | cons c L ih =>
    simp only [List.foldl_cons]
    rcases checkStep_cases acc c with hstep | hstep <;> rw [hstep]
    · exact ih acc
    · obtain ⟨h1, h2, h3, h4, h5, h6, h7, h8, h9, h10⟩ :=
        awardAchievement_frame acc.1 c.1
      obtain ⟨g1, g2, g3, g4, g5, g6, g7, g8, g9, g10⟩ :=
        ih ((awardAchievement acc.1 c.1).1, acc.2 ++ [c.1])
      exact ⟨g1.trans h1, g2.trans h2, g3.trans h3, g4.trans h4, g5.trans h5,
        g6.trans h6, g7.trans h7, g8.trans h8, g9.trans h9, g10.trans h10⟩

/-- The `_check_achievements` loop never decreases the point counters. -/
theorem checkFold_points_mono (L : List (String × (UserStats → Bool)))
    (acc : UserStats × List String) :
    acc.1.total_points ≤ (L.foldl checkStep acc).1.total_points ∧
    acc.1.experience_points ≤ (L.foldl checkStep acc).1.experience_points := by
  induction L generalizing acc with
  | nil => simp
  | cons c L ih =>
    simp only [List.foldl_cons]
    rcases checkStep_cases acc c with hstep | hstep <;> rw [hstep]
    · exact ih acc
    · obtain ⟨h1, h2⟩ := awardAchievement_points_mono acc.1 c.1
      obtain ⟨g1, g2⟩ := ih ((awardAchievement acc.1 c.1).1, acc.2 ++ [c.1])
      exact ⟨h1.trans g1, h2.trans g2⟩

/-- Badge membership survives the `_check_achievements` loop. -/
theorem checkFold_badges_mem (L : List (String × (UserStats → Bool)))
    (acc : UserStats × List String) (x : String) (h : x ∈ acc.1.badges) :
    x ∈ (L.foldl checkStep acc).1.badges := by
  induction L generalizing acc with
  | nil => simpa
  | cons c L ih =>
    simp only [List.foldl_cons]
    rcases checkStep_cases acc c with hstep | hstep <;> rw [hstep]
    · exact ih acc h
    · exact ih _ (awardAchievement_badges_mem acc.1 c.1 x h)

/-- The `_check_achievements` loop preserves distinctness of the badges. -/
theorem checkFold_badges_nodup (L : List (String × (UserStats → Bool)))
    (acc : UserStats × List String) (h : acc.1.badges.Nodup) :
    (L.foldl checkStep acc).1.badges.Nodup := by
  induction L generalizing acc with
  | nil => simpa
  | cons c L ih =>
    simp only [List.foldl_cons]
    rcases checkStep_cases acc c with hstep | hstep <;> rw [hstep]
    · exact ih acc h
    · exact ih _ (awardAchievement_badges_nodup acc.1 c.1 h)

@[simp] theorem checkAchievements_problems_solved (s : UserStats) :
    (checkAchievements s).1.problems_solved = s.problems_solved :=
  by unfold checkAchievements; exact (checkFold_frame achievementChecks (s, [])).1

@[simp] theorem checkAchievements_problems_correct (s : UserStats) :
    (checkAchievements s).1.problems_correct = s.problems_correct :=
  by unfold checkAchievements; exact (checkFold_frame achievementChecks (s, [])).2.1

@[simp] theorem checkAchievements_accuracy_rate (s : UserStats) :
    (checkAchievements s).1.accuracy_rate = s.accuracy_rate :=
  by unfold checkAchievements; exact (checkFold_frame achievementChecks (s, [])).2.2.1

@[simp] theorem checkAchievements_study_streak (s : UserStats) :
    (checkAchievements s).1.study_streak = s.study_streak :=
  by unfold checkAchievements; exact (checkFold_frame achievementChecks (s, [])).2.2.2.1

@[simp] theorem checkAchievements_sessions_completed (s : UserStats) :
    (checkAchievements s).1.sessions_completed = s.sessions_completed :=
  by unfold checkAchievements; exact (checkFold_frame achievementChecks (s, [])).2.2.2.2.1

@[simp] theorem checkAchievements_overall_progress (s : UserStats) :
    (checkAchievements s).1.overall_progress = s.overall_progress :=
  by unfold checkAchievements; exact (checkFold_frame achievementChecks (s, [])).2.2.2.2.2.1

@[simp] theorem checkAchievements_level (s : UserStats) :
    (checkAchievements s).1.level = s.level :=
  by unfold checkAchievements; exact (checkFold_frame achievementChecks (s, [])).2.2.2.2.2.2.1

@[simp] theorem checkAchievements_last_activity_date (s : UserStats) :
    (checkAchievements s).1.last_activity_date = s.last_activity_date :=
  by unfold checkAchievements; exact (checkFold_frame achievementChecks (s, [])).2.2.2.2.2.2.2.1

@[simp] theorem checkAchievements_study_time_today (s : UserStats) :
    (checkAchievements s).1.study_time_today = s.study_time_today :=
  by unfold checkAchievements; exact (checkFold_frame achievementChecks (s, [])).2.2.2.2.2.2.2.2.1

@[simp] theorem checkAchievements_total_study_time (s : UserStats) :
    (checkAchievements s).1.total_study_time = s.total_study_time :=
  by unfold checkAchievements; exact (checkFold_frame achievementChecks (s, [])).2.2.2.2.2.2.2.2.2

theorem checkAchievements_points_mono (s : UserStats) :
    s.total_points ≤ (checkAchievements s).1.total_points ∧
    s.experience_points ≤ (checkAchievements s).1.experience_points := by
  unfold checkAchievements
  exact checkFold_points_mono achievementChecks (s, [])

theorem checkAchievements_badges_mem (s : UserStats) (x : String)
    (h : x ∈ s.badges) : x ∈ (checkAchievements s).1.badges := by
  unfold checkAchievements
  exact checkFold_badges_mem achievementChecks (s, []) x h

theorem checkAchievements_badges_nodup (s : UserStats)
    (h : s.badges.Nodup) : (checkAchievements s).1.badges.Nodup := by
  unfold checkAchievements
  exact checkFold_badges_nodup achievementChecks (s, []) h

theorem checkStep_condFields (acc : UserStats × List String)
    (c : String × (UserStats → Bool)) :
    condFields (checkStep acc c).1 = condFields acc.1 := by
  rcases checkStep_cases acc c with hstep | hstep <;> rw [hstep]
  obtain ⟨h1, _, _, h4, h5, h6, _⟩ := awardAchievement_frame acc.1 c.1
  simp [condFields, h1, h4, h5, h6]

theorem checkFold_condFields (L : List (String × (UserStats → Bool)))
    (acc : UserStats × List String) :
    condFields (L.foldl checkStep acc).1 = condFields acc.1 := by
  obtain ⟨h1, _, _, h4, h5, h6, _⟩ := checkFold_frame L acc
  simp [condFields, h1, h4, h5, h6]

/-- Every id in the `_check_achievements` table is in the static
`ACHIEVEMENTS` registry. -/
theorem achievementChecks_registered :
    ∀ c ∈ achievementChecks, (achievementPoints c.1).isSome = true := by
  with_unfolding_all decide

/-- Every `_check_achievements` condition reads only the fields collected in
`condFields` (counters that `award_achievement` never writes). -/
theorem achievementChecks_stable :
    ∀ c ∈ achievementChecks, ∀ s t : UserStats,
      condFields t = condFields s → c.2 t = c.2 s := by
  intro c hc s t h
  simp only [condFields, Prod.mk.injEq] at h
  obtain ⟨h1, h2, h3, h4⟩ := h
  fin_cases hc <;> simp [h1, h2, h3, h4]

/-- After one run of the `_check_achievements` loop, every check is settled:
its id is now a badge, or its condition evaluates to false on the resulting
state. -/
theorem checkFold_settles (L : List (String × (UserStats → Bool)))
    (hreg : ∀ c ∈ L, (achievementPoints c.1).isSome = true)
    (hstable : ∀ c ∈ L, ∀ s t : UserStats,
      condFields t = condFields s → c.2 t = c.2 s)
    (acc : UserStats × List String) :
    ∀ c ∈ L, c.1 ∈ (L.foldl checkStep acc).1.badges ∨
      c.2 (L.foldl checkStep acc).1 = false := by
  induction L generalizing acc with
  | nil => simp
  | cons c0 L ih =>
    intro c hc
    simp only [List.foldl_cons]
    rcases List.mem_cons.mp hc with rfl | hcL
    · by_cases hg : c.1 ∉ acc.1.badges ∧ c.2 acc.1 = true
      · have hsome := hreg c (List.mem_cons_self c L)
        obtain ⟨pts, hpts⟩ := Option.isSome_iff_exists.mp hsome
        have happ := awardAchievement_badges_append acc.1 c.1 pts hpts hg.1
        have hstep : checkStep acc c = ((awardAchievement acc.1 c.1).1, acc.2 ++ [c.1]) := by
          unfold checkStep
          rw [if_pos hg]
        rw [hstep]
        left
        apply checkFold_badges_mem
        simp [happ]
      · have hstep : checkStep acc c = acc := by
          unfold checkStep
          rw [if_neg hg]
        rw [hstep]
        by_cases hmem : c.1 ∈ acc.1.badges
        · exact Or.inl (checkFold_badges_mem L acc c.1 hmem)
        · right
          have hcond : c.2 acc.1 = false := by
            cases h : c.2 acc.1
            · rfl
            · exact absurd ⟨hmem, h⟩ hg
          rw [hstable c (List.mem_cons_self c L) acc.1
            (L.foldl checkStep acc).1 (checkFold_condFields L acc)]
          exact hcond
    · exact ih (fun d hd => hreg d (List.mem_cons_of_mem c0 hd))
        (fun d hd => hstable d (List.mem_cons_of_mem c0 hd))
        (checkStep acc c0) c hcL

/-- On a settled accumulator the `_check_achievements` loop does nothing. -/
theorem checkFold_settled_noop (L : List (String × (UserStats → Bool)))
    (acc : UserStats × List String)
    (hsettled : ∀ c ∈ L, c.1 ∈ acc.1.badges ∨ c.2 acc.1 = false) :
    L.foldl checkStep acc = acc := by
  induction L with
  | nil => rfl
  | cons c0 L ih =>
    have h0 := hsettled c0 (List.mem_cons_self c0 L)
    have hstep : checkStep acc c0 = acc := by
      unfold checkStep
      rw [if_neg]
      rintro ⟨hnot, htrue⟩
      rcases h0 with h | h
      · exact hnot h
      · rw [h] at htrue
        exact Bool.false_ne_true htrue
    simp only [List.foldl_cons, hstep]
    exact ih fun c hc => hsettled c (List.mem_cons_of_mem c0 hc)

/-- A state whose counters are below every achievement threshold passes the
`_check_achievements` loop unchanged. -/
theorem checkAchievements_noop (s : UserStats)
    (h1 : s.problems_solved < 10) (h2 : s.study_streak < 7)
    (h3 : s.overall_progress < 25) (h4 : s.sessions_completed < 5) :
    checkAchievements s = (s, []) := by
  unfold checkAchievements
  apply checkFold_settled_noop
  intro c hc
  right
  fin_cases hc <;> simp <;> first | omega | linarith

@[simp] theorem updateSubjectStats_problems_solved (s : UserStats)
    (subj : String) (p : ℚ) (c : Bool) :
    (updateSubjectStats s subj p c).problems_solved = s.problems_solved := rfl

@[simp] theorem updateSubjectStats_problems_correct (s : UserStats)
    (subj : String) (p : ℚ) (c : Bool) :
    (updateSubjectStats s subj p c).problems_correct = s.problems_correct := rfl

@[simp] theorem updateSubjectStats_accuracy_rate (s : UserStats)
    (subj : String) (p : ℚ) (c : Bool) :
    (updateSubjectStats s subj p c).accuracy_rate = s.accuracy_rate := rfl

@[simp] theorem updateSubjectStats_total_points (s : UserStats)
    (subj : String) (p : ℚ) (c : Bool) :
    (updateSubjectStats s subj p c).total_points = s.total_points := rfl

@[simp] theorem updateSubjectStats_experience_points (s : UserStats)
    (subj : String) (p : ℚ) (c : Bool) :
    (updateSubjectStats s subj p c).experience_points = s.experience_points := rfl

@[simp] theorem updateSubjectStats_study_streak (s : UserStats)
    (subj : String) (p : ℚ) (c : Bool) :
    (updateSubjectStats s subj p c).study_streak = s.study_streak := rfl

@[simp] theorem updateSubjectStats_sessions_completed (s : UserStats)
    (subj : String) (p : ℚ) (c : Bool) :
    (updateSubjectStats s subj p c).sessions_completed = s.sessions_completed := rfl

@[simp] theorem updateSubjectStats_badges (s : UserStats)
    (subj : String) (p : ℚ) (c : Bool) :
    (updateSubjectStats s subj p c).badges = s.badges := rfl

@[simp] theorem updateSubjectStats_level (s : UserStats)
    (subj : String) (p : ℚ) (c : Bool) :
    (updateSubjectStats s subj p c).level = s.level := rfl

@[simp] theorem updateSubjectStats_last_activity_date (s : UserStats)
    (subj : String) (p : ℚ) (c : Bool) :
    (updateSubjectStats s subj p c).last_activity_date = s.last_activity_date := rfl

@[simp] theorem updateSubjectStats_study_time_today (s : UserStats)
    (subj : String) (p : ℚ) (c : Bool) :
    (updateSubjectStats s subj p c).study_time_today = s.study_time_today := rfl

@[simp] theorem updateSubjectStats_total_study_time (s : UserStats)
    (subj : String) (p : ℚ) (c : Bool) :
    (updateSubjectStats s subj p c).total_study_time = s.total_study_time := rfl

@[simp] theorem updateSubjectStats_recent_sessions (s : UserStats)
    (subj : String) (p : ℚ) (c : Bool) :
    (updateSubjectStats s subj p c).recent_sessions = s.recent_sessions := rfl

@[simp] theorem updateProblemStats_problems_solved (s : UserStats)
    (subj : Option String) (c : Option Bool) (d : Option String) :
    (updateProblemStats s subj c d).problems_solved = s.problems_solved + 1 := by
  rcases subj with _ | sj
  · rfl
  · by_cases h : sj = "" <;> simp [updateProblemStats, h]

@[simp] theorem updateProblemStats_problems_correct (s : UserStats)
    (subj : Option String) (c : Option Bool) (d : Option String) :
    (updateProblemStats s subj c d).problems_correct =
      s.problems_correct + (if c.getD false then 1 else 0) := by
  rcases subj with _ | sj
  · rfl
  · by_cases h : sj = "" <;> simp [updateProblemStats, h]

@[simp] theorem updateProblemStats_accuracy_rate (s : UserStats)
    (subj : Option String) (c : Option Bool) (d : Option String) :
    (updateProblemStats s subj c d).accuracy_rate =
      (((s.problems_correct + (if c.getD false then 1 else 0) : ℕ) : ℚ) /
        ((s.problems_solved + 1 : ℕ) : ℚ)) * 100 := by
  rcases subj with _ | sj
  · rfl
  · by_cases h : sj = "" <;> simp [updateProblemStats, h]

@[simp] theorem updateProblemStats_total_points (s : UserStats)
    (subj : Option String) (c : Option Bool) (d : Option String) :
    (updateProblemStats s subj c d).total_points =
      s.total_points + problemPointsAwarded s c d := by
  rcases subj with _ | sj
  · rfl
  · by_cases h : sj = "" <;> simp [updateProblemStats, h]

@[simp] theorem updateProblemStats_experience_points (s : UserStats)
    (subj : Option String) (c : Option Bool) (d : Option String) :
    (updateProblemStats s subj c d).experience_points =
      s.experience_points + problemPointsAwarded s c d := by
  rcases subj with _ | sj
  · rfl
  · by_cases h : sj = "" <;> simp [updateProblemStats, h]

@[simp] theorem updateProblemStats_study_streak (s : UserStats)
    (subj : Option String) (c : Option Bool) (d : Option String) :
    (updateProblemStats s subj c d).study_streak = s.study_streak := by
  rcases subj with _ | sj
  · rfl
  · by_cases h : sj = "" <;> simp [updateProblemStats, h]

@[simp] theorem updateProblemStats_sessions_completed (s : UserStats)
    (subj : Option String) (c : Option Bool) (d : Option String) :
    (updateProblemStats s subj c d).sessions_completed = s.sessions_completed := by
  rcases subj with _ | sj
  · rfl
  · by_cases h : sj = "" <;> simp [updateProblemStats, h]

@[simp] theorem updateProblemStats_badges (s : UserStats)
    (subj : Option String) (c : Option Bool) (d : Option String) :
    (updateProblemStats s subj c d).badges = s.badges := by
  rcases subj with _ | sj
  · rfl
  · by_cases h : sj = "" <;> simp [updateProblemStats, h]

@[simp] theorem updateProblemStats_level (s : UserStats)
    (subj : Option String) (c : Option Bool) (d : Option String) :
    (updateProblemStats s subj c d).level = s.level := by
  rcases subj with _ | sj
  · rfl
  · by_cases h : sj = "" <;> simp [updateProblemStats, h]

@[simp] theorem updateProblemStats_last_activity_date (s : UserStats)
    (subj : Option String) (c : Option Bool) (d : Option String) :
    (updateProblemStats s subj c d).last_activity_date = s.last_activity_date := by
  rcases subj with _ | sj
  · rfl
  · by_cases h : sj = "" <;> simp [updateProblemStats, h]

@[simp] theorem updateProblemStats_study_time_today (s : UserStats)
    (subj : Option String) (c : Option Bool) (d : Option String) :
    (updateProblemStats s subj c d).study_time_today = s.study_time_today := by
  rcases subj with _ | sj
  · rfl
  · by_cases h : sj = "" <;> simp [updateProblemStats, h]

@[simp] theorem updateProblemStats_total_study_time (s : UserStats)
    (subj : Option String) (c : Option Bool) (d : Option String) :
    (updateProblemStats s subj c d).total_study_time = s.total_study_time := by
  rcases subj with _ | sj
  · rfl
  · by_cases h : sj = "" <;> simp [updateProblemStats, h]

@[simp] theorem updateSessionStats_sessions_completed (s : UserStats)
    (dur : ℚ) (np : ℕ) (pe : ℚ) :
    (updateSessionStats s dur np pe).sessions_completed =
      s.sessions_completed + 1 := rfl

@[simp] theorem updateSessionStats_problems_solved (s : UserStats)
    (dur : ℚ) (np : ℕ) (pe : ℚ) :
    (updateSessionStats s dur np pe).problems_solved = s.problems_solved := rfl

@[simp] theorem updateSessionStats_problems_correct (s : UserStats)
    (dur : ℚ) (np : ℕ) (pe : ℚ) :
    (updateSessionStats s dur np pe).problems_correct = s.problems_correct := rfl

@[simp] theorem updateSessionStats_accuracy_rate (s : UserStats)
    (dur : ℚ) (np : ℕ) (pe : ℚ) :
    (updateSessionStats s dur np pe).accuracy_rate = s.accuracy_rate := rfl

@[simp] theorem updateSessionStats_total_points (s : UserStats)
    (dur : ℚ) (np : ℕ) (pe : ℚ) :
    (updateSessionStats s dur np pe).total_points = s.total_points := rfl

@[simp] theorem updateSessionStats_experience_points (s : UserStats)
    (dur : ℚ) (np : ℕ) (pe : ℚ) :
    (updateSessionStats s dur np pe).experience_points = s.experience_points := rfl

@[simp] theorem updateSessionStats_study_streak (s : UserStats)
    (dur : ℚ) (np : ℕ) (pe : ℚ) :
    (updateSessionStats s dur np pe).study_streak = s.study_streak := rfl

@[simp] theorem updateSessionStats_badges (s : UserStats)
    (dur : ℚ) (np : ℕ) (pe : ℚ) :
    (updateSessionStats s dur np pe).badges = s.badges := rfl

@[simp] theorem updateSessionStats_level (s : UserStats)
    (dur : ℚ) (np : ℕ) (pe : ℚ) :
    (updateSessionStats s dur np pe).level = s.level := rfl

@[simp] theorem updateSessionStats_last_activity_date (s : UserStats)
    (dur : ℚ) (np : ℕ) (pe : ℚ) :
    (updateSessionStats s dur np pe).last_activity_date = s.last_activity_date := rfl

@[simp] theorem updateSessionStats_study_time_today (s : UserStats)
    (dur : ℚ) (np : ℕ) (pe : ℚ) :
    (updateSessionStats s dur np pe).study_time_today = s.study_time_today := rfl

@[simp] theorem updateSessionStats_total_study_time (s : UserStats)
    (dur : ℚ) (np : ℕ) (pe : ℚ) :
    (updateSessionStats s dur np pe).total_study_time = s.total_study_time := rfl

@[simp] theorem updateTimeStats_study_time_today (s : UserStats) (t : ℚ) :
    (updateTimeStats s t).study_time_today = s.study_time_today + t := rfl

@[simp] theorem updateTimeStats_total_study_time (s : UserStats) (t : ℚ) :
    (updateTimeStats s t).total_study_time = s.total_study_time + t := rfl

@[simp] theorem updateTimeStats_total_points (s : UserStats) (t : ℚ) :
    (updateTimeStats s t).total_points =
      s.total_points + min (t * timePointsPerHour) maxDailyPoints := rfl

@[simp] theorem updateTimeStats_experience_points (s : UserStats) (t : ℚ) :
    (updateTimeStats s t).experience_points = s.experience_points := rfl

@[simp] theorem updateTimeStats_problems_solved (s : UserStats) (t : ℚ) :
    (updateTimeStats s t).problems_solved = s.problems_solved := rfl

@[simp] theorem updateTimeStats_problems_correct (s : UserStats) (t : ℚ) :
    (updateTimeStats s t).problems_correct = s.problems_correct := rfl

@[simp] theorem updateTimeStats_accuracy_rate (s : UserStats) (t : ℚ) :
    (updateTimeStats s t).accuracy_rate = s.accuracy_rate := rfl

@[simp] theorem updateTimeStats_study_streak (s : UserStats) (t : ℚ) :
    (updateTimeStats s t).study_streak = s.study_streak := rfl

@[simp] theorem updateTimeStats_sessions_completed (s : UserStats) (t : ℚ) :
    (updateTimeStats s t).sessions_completed = s.sessions_completed := rfl

@[simp] theorem updateTimeStats_badges (s : UserStats) (t : ℚ) :
    (updateTimeStats s t).badges = s.badges := rfl

@[simp] theorem updateTimeStats_level (s : UserStats) (t : ℚ) :
    (updateTimeStats s t).level = s.level := rfl

@[simp] theorem updateTimeStats_last_activity_date (s : UserStats) (t : ℚ) :
    (updateTimeStats s t).last_activity_date = s.last_activity_date := rfl

@[simp] theorem updateLoginStats_problems_solved (s : UserStats) (t : ℤ) :
    (updateLoginStats s t).problems_solved = s.problems_solved := by
  unfold updateLoginStats; split_ifs <;> rfl

@[simp] theorem updateLoginStats_problems_correct (s : UserStats) (t : ℤ) :
    (updateLoginStats s t).problems_correct = s.problems_correct := by
  unfold updateLoginStats; split_ifs <;> rfl

@[simp] theorem updateLoginStats_accuracy_rate (s : UserStats) (t : ℤ) :
    (updateLoginStats s t).accuracy_rate = s.accuracy_rate := by
  unfold updateLoginStats; split_ifs <;> rfl

@[simp] theorem updateLoginStats_total_points (s : UserStats) (t : ℤ) :
    (updateLoginStats s t).total_points = s.total_points := by
  unfold updateLoginStats; split_ifs <;> rfl

@[simp] theorem updateLoginStats_experience_points (s : UserStats) (t : ℤ) :
    (updateLoginStats s t).experience_points = s.experience_points := by
  unfold updateLoginStats; split_ifs <;> rfl

@[simp] theorem updateLoginStats_study_streak (s : UserStats) (t : ℤ) :
    (updateLoginStats s t).study_streak = s.study_streak := by
  unfold updateLoginStats; split_ifs <;> rfl

@[simp] theorem updateLoginStats_sessions_completed (s : UserStats) (t : ℤ) :
    (updateLoginStats s t).sessions_completed = s.sessions_completed := by
  unfold updateLoginStats; split_ifs <;> rfl

@[simp] theorem updateLoginStats_badges (s : UserStats) (t : ℤ) :
    (updateLoginStats s t).badges = s.badges := by
  unfold updateLoginStats; split_ifs <;> rfl

@[simp] theorem updateLoginStats_level (s : UserStats) (t : ℤ) :
    (updateLoginStats s t).level = s.level := by
  unfold updateLoginStats; split_ifs <;> rfl

@[simp] theorem updateLoginStats_last_activity_date (s : UserStats) (t : ℤ) :
    (updateLoginStats s t).last_activity_date = s.last_activity_date := by
  unfold updateLoginStats; split_ifs <;> rfl

@[simp] theorem updateLoginStats_study_time_today (s : UserStats) (t : ℤ) :
    (updateLoginStats s t).study_time_today = s.study_time_today := by
  unfold updateLoginStats; split_ifs <;> rfl

@[simp] theorem updateLoginStats_total_study_time (s : UserStats) (t : ℤ) :
    (updateLoginStats s t).total_study_time = s.total_study_time := by
  unfold updateLoginStats; split_ifs <;> rfl

@[simp] theorem calculateDerivedMetrics_problems_solved (s : UserStats) :
    (calculateDerivedMetrics s).problems_solved = s.problems_solved := rfl

@[simp] theorem calculateDerivedMetrics_problems_correct (s : UserStats) :
    (calculateDerivedMetrics s).problems_correct = s.problems_correct := rfl

@[simp] theorem calculateDerivedMetrics_accuracy_rate (s : UserStats) :
    (calculateDerivedMetrics s).accuracy_rate = s.accuracy_rate := rfl

@[simp] theorem calculateDerivedMetrics_total_points (s : UserStats) :
    (calculateDerivedMetrics s).total_points = s.total_points := rfl

@[simp] theorem calculateDerivedMetrics_experience_points (s : UserStats) :
    (calculateDerivedMetrics s).experience_points = s.experience_points := rfl

@[simp] theorem calculateDerivedMetrics_study_streak (s : UserStats) :
    (calculateDerivedMetrics s).study_streak = s.study_streak := rfl

@[simp] theorem calculateDerivedMetrics_sessions_completed (s : UserStats) :
    (calculateDerivedMetrics s).sessions_completed = s.sessions_completed := rfl

@[simp] theorem calculateDerivedMetrics_badges (s : UserStats) :
    (calculateDerivedMetrics s).badges = s.badges := rfl

@[simp] theorem calculateDerivedMetrics_level (s : UserStats) :
    (calculateDerivedMetrics s).level = s.level := rfl

@[simp] theorem calculateDerivedMetrics_last_activity_date (s : UserStats) :
    (calculateDerivedMetrics s).last_activity_date = s.last_activity_date := rfl

@[simp] theorem calculateDerivedMetrics_study_time_today (s : UserStats) :
    (calculateDerivedMetrics s).study_time_today = s.study_time_today := rfl

@[simp] theorem calculateDerivedMetrics_total_study_time (s : UserStats) :
    (calculateDerivedMetrics s).total_study_time = s.total_study_time := rfl

/-- The overall-progress formula of the source, spelled out. -/
theorem calculateDerivedMetrics_overall_progress (s : UserStats) :
    (calculateDerivedMetrics s).overall_progress =
      (min (s.total_points / 1000) 1 + min ((s.problems_solved : ℚ) / 100) 1 +
        s.accuracy_rate / 100 + min ((s.sessions_completed : ℚ) / 50) 1) / 4 * 100 := rfl

/-- When the last activity date already equals today (as `update_stats`
guarantees, having just overwritten it), `_update_streaks` does nothing. -/
theorem updateStreaks_noop (s : UserStats) (t : ℤ)
    (h : s.last_activity_date = some t) : updateStreaks s t = s := by
  unfold updateStreaks
  rw [h]
  simp

@[simp] theorem updateLevelAndExperience_problems_solved (s : UserStats) :
    (updateLevelAndExperience s).problems_solved = s.problems_solved := by
  simp only [updateLevelAndExperience]; split_ifs <;> rfl

@[simp] theorem updateLevelAndExperience_problems_correct (s : UserStats) :
    (updateLevelAndExperience s).problems_correct = s.problems_correct := by
  simp only [updateLevelAndExperience]; split_ifs <;> rfl

@[simp] theorem updateLevelAndExperience_accuracy_rate (s : UserStats) :
    (updateLevelAndExperience s).accuracy_rate = s.accuracy_rate := by
  simp only [updateLevelAndExperience]; split_ifs <;> rfl

@[simp] theorem updateLevelAndExperience_total_points (s : UserStats) :
    (updateLevelAndExperience s).total_points = s.total_points := by
  simp only [updateLevelAndExperience]; split_ifs <;> rfl

@[simp] theorem updateLevelAndExperience_experience_points (s : UserStats) :
    (updateLevelAndExperience s).experience_points = s.experience_points := by
  simp only [updateLevelAndExperience]; split_ifs <;> rfl

@[simp] theorem updateLevelAndExperience_study_streak (s : UserStats) :
    (updateLevelAndExperience s).study_streak = s.study_streak := by
  simp only [updateLevelAndExperience]; split_ifs <;> rfl

@[simp] theorem updateLevelAndExperience_sessions_completed (s : UserStats) :
    (updateLevelAndExperience s).sessions_completed = s.sessions_completed := by
  simp only [updateLevelAndExperience]; split_ifs <;> rfl

@[simp] theorem updateLevelAndExperience_study_time_today (s : UserStats) :
    (updateLevelAndExperience s).study_time_today = s.study_time_today := by
  simp only [updateLevelAndExperience]; split_ifs <;> rfl

@[simp] theorem updateLevelAndExperience_total_study_time (s : UserStats) :
    (updateLevelAndExperience s).total_study_time = s.total_study_time := by
  simp only [updateLevelAndExperience]; split_ifs <;> rfl

@[simp] theorem updateLevelAndExperience_last_activity_date (s : UserStats) :
    (updateLevelAndExperience s).last_activity_date = s.last_activity_date := by
  simp only [updateLevelAndExperience]; split_ifs <;> rfl

/-- The level-up block either leaves the badges unchanged or appends
`level_up` exactly when it was absent. -/
theorem updateLevelAndExperience_badges (s : UserStats) :
    (updateLevelAndExperience s).badges = s.badges ∨
    ((updateLevelAndExperience s).badges = s.badges ++ ["level_up"] ∧
      "level_up" ∉ s.badges) := by
  simp only [updateLevelAndExperience]
  split_ifs <;> simp_all

theorem updateLevelAndExperience_badges_nodup (s : UserStats)
    (h : s.badges.Nodup) : (updateLevelAndExperience s).badges.Nodup := by
  rcases updateLevelAndExperience_badges s with hb | ⟨hb, hmem⟩
  · simpa [hb] using h
  · simp [hb, List.nodup_append, h, hmem]

@[simp] theorem updateStreaks_total_points (s : UserStats) (t : ℤ) :
    (updateStreaks s t).total_points = s.total_points := by
  unfold updateStreaks; split <;> (try split_ifs) <;> rfl

@[simp] theorem updateStreaks_experience_points (s : UserStats) (t : ℤ) :
    (updateStreaks s t).experience_points = s.experience_points := by
  unfold updateStreaks; split <;> (try split_ifs) <;> rfl

@[simp] theorem updateStreaks_problems_solved (s : UserStats) (t : ℤ) :
    (updateStreaks s t).problems_solved = s.problems_solved := by
  unfold updateStreaks; split <;> (try split_ifs) <;> rfl

@[simp] theorem updateStreaks_problems_correct (s : UserStats) (t : ℤ) :
    (updateStreaks s t).problems_correct = s.problems_correct := by
  unfold updateStreaks; split <;> (try split_ifs) <;> rfl

@[simp] theorem updateStreaks_accuracy_rate (s : UserStats) (t : ℤ) :
    (updateStreaks s t).accuracy_rate = s.accuracy_rate := by
  unfold updateStreaks; split <;> (try split_ifs) <;> rfl

@[simp] theorem updateStreaks_sessions_completed (s : UserStats) (t : ℤ) :
    (updateStreaks s t).sessions_completed = s.sessions_completed := by
  unfold updateStreaks; split <;> (try split_ifs) <;> rfl

@[simp] theorem updateStreaks_badges (s : UserStats) (t : ℤ) :
    (updateStreaks s t).badges = s.badges := by
  unfold updateStreaks; split <;> (try split_ifs) <;> rfl

@[simp] theorem updateStreaks_level (s : UserStats) (t : ℤ) :
    (updateStreaks s t).level = s.level := by
  unfold updateStreaks; split <;> (try split_ifs) <;> rfl

@[simp] theorem updateStreaks_study_time_today (s : UserStats) (t : ℤ) :
    (updateStreaks s t).study_time_today = s.study_time_today := by
  unfold updateStreaks; split <;> (try split_ifs) <;> rfl

@[simp] theorem updateStreaks_total_study_time (s : UserStats) (t : ℤ) :
    (updateStreaks s t).total_study_time = s.total_study_time := by
  unfold updateStreaks; split <;> (try split_ifs) <;> rfl

@[simp] theorem updateStreaks_last_activity_date (s : UserStats) (t : ℤ) :
    (updateStreaks s t).last_activity_date = s.last_activity_date := by
  unfold updateStreaks; split <;> (try split_ifs) <;> rfl

theorem pointsPerProblem_nonneg (d : String) : 0 ≤ pointsPerProblem d := by
  unfold pointsPerProblem; split_ifs <;> norm_num

theorem problemPointsAwarded_nonneg (s : UserStats) (c : Option Bool)
    (d : Option String) : 0 ≤ problemPointsAwarded s c d := by
  have hb := pointsPerProblem_nonneg (d.getD "Beginner")
  simp only [problemPointsAwarded, streakBonusMultiplier]
  split_ifs <;> nlinarith [hb]

theorem updateStats_badges_nodup (s : UserStats) (t : ℤ) (e : Event)
    (h : s.badges.Nodup) : (updateStats s t e).badges.Nodup := by
  unfold updateStats
  cases e <;>
    (apply updateLevelAndExperience_badges_nodup
     rw [updateStreaks_badges]
     apply checkAchievements_badges_nodup
     simpa using h)

/-- C1: `update_stats` overwrites `last_activity_date` with today before
`_update_streaks` runs, so the same-day branch always fires and the study
streak is never changed by any event — refuting the increment-on-`D+1` and
reset-on-gap behaviour of the claim (only the same-day clause holds). -/
theorem C1_study_streak_never_changes (s : UserStats) (today : ℤ) (e : Event) :
    (updateStats s today e).study_streak = s.study_streak := by
  unfold updateStats
  cases e <;> simp [updateStreaks_noop]

set_option maxRecDepth 100000 in
set_option maxHeartbeats 1000000 in
/-- C2: two study-time events of 15 hours each, logged on the same day,
award 150 + 150 = 300 time points, exceeding the 200-point daily cap — the
`max_daily_points` cap is applied per call, not to a same-day running total. -/
theorem C2_daily_cap_violated_by_split_events :
    (updateStats (updateStats initUserStats 0 (.studyTime 15)) 0
        (.studyTime 15)).total_points = 300 ∧
    maxDailyPoints <
      (updateStats (updateStats initUserStats 0 (.studyTime 15)) 0
        (.studyTime 15)).total_points := by
  with_unfolding_all decide

set_option maxRecDepth 100000 in
set_option maxHeartbeats 1000000 in
/-- C3 counterexample: from a fresh state, one correct Beginner problem
followed by one incorrect one makes `overall_progress` drop (from 25.31 to
14.985), because the composite average includes the accuracy rate. -/
theorem C3_counterexample_overall_progress_decreases :
    (updateStats (updateStats initUserStats 0
          (.problemSolved (some "Math") (some true) (some "Beginner"))) 0
          (.problemSolved (some "Math") (some false) (some "Beginner"))).overall_progress <
      (updateStats initUserStats 0
          (.problemSolved (some "Math") (some true) (some "Beginner"))).overall_progress := by
  with_unfolding_all decide

/-- C3 amended: for valid `ProblemSolved`/`SessionCompleted`/`StudyTimeLogged`
events, `totalPoints`, `problemsSolved` and `sessionsCompleted` are
non-decreasing from one state to the next; `overallProgress` is excluded,
since it decreases whenever an incorrect answer lowers the accuracy rate. -/
theorem C3_counters_monotone (s : UserStats) (today : ℤ) (e : Event)
    (h : validProgressEvent e) :
    s.total_points ≤ (updateStats s today e).total_points ∧
    s.problems_solved ≤ (updateStats s today e).problems_solved ∧
    s.sessions_completed ≤ (updateStats s today e).sessions_completed := by
  cases e with
  | problemSolved subj c d =>
    refine ⟨?_, by simp [updateStats], by simp [updateStats]⟩
    unfold updateStats
    simp only [updateLevelAndExperience_total_points, updateStreaks_total_points]
    refine le_trans ?_ (checkAchievements_points_mono _).1
    simp [problemPointsAwarded_nonneg]
  | sessionCompleted subj dur np pe =>
    refine ⟨?_, by simp [updateStats], by simp [updateStats]⟩
    unfold updateStats
    simp only [updateLevelAndExperience_total_points, updateStreaks_total_points]
    refine le_trans ?_ (checkAchievements_points_mono _).1
    simp
  | studyTime d =>
    have hd : (0 : ℚ) ≤ d := h
    refine ⟨?_, by simp [updateStats], by simp [updateStats]⟩
    unfold updateStats
    simp only [updateLevelAndExperience_total_points, updateStreaks_total_points]
    refine le_trans ?_ (checkAchievements_points_mono _).1
    simp [le_min_iff, timePointsPerHour, maxDailyPoints]
    try constructor
    all_goals nlinarith
  | login => exact h.elim
  | other => exact h.elim

theorem C3_counters_monotone_witness :
    validProgressEvent (Event.studyTime 1) ∧
    (initUserStats.total_points ≤
        (updateStats initUserStats 0 (Event.studyTime 1)).total_points ∧
      initUserStats.problems_solved ≤
        (updateStats initUserStats 0 (Event.studyTime 1)).problems_solved ∧
      initUserStats.sessions_completed ≤
        (updateStats initUserStats 0 (Event.studyTime 1)).sessions_completed) :=
  ⟨by norm_num [validProgressEvent],
    C3_counters_monotone initUserStats 0 (Event.studyTime 1)
      (by norm_num [validProgressEvent])⟩

set_option maxRecDepth 100000 in
set_option maxHeartbeats 1000000 in
/-- C4 counterexample: three consecutive correct outcomes in a fresh
Beginner session leave the difficulty at Beginner with zero adjustments (the
claim expects Intermediate with an adjustment on the third call), because
`_should_increase_difficulty` inspects the history before the current outcome
is appended. -/
theorem C4_counterexample_three_correct_no_promotion :
    (recordOutcomes ({} : AdaptiveSession) [true, true, true]).current_difficulty
        = "Beginner" ∧
    (recordOutcomes ({} : AdaptiveSession) [true, true, true]).adaptive_adjustments
        = 0 := by
  with_unfolding_all decide

set_option maxRecDepth 100000 in
set_option maxHeartbeats 1000000 in
/-- C4 amended: promotion fires exactly when, after incrementing the attempt
counter, at least 3 problems have been attempted and the last 3 outcomes
recorded before the current one are all correct; so three corrects from a
fresh Beginner session change nothing, and the fourth consecutive correct
promotes to Intermediate with the single adjustment on that call. -/
theorem C4_promotion_uses_previous_window :
    ((recordOutcomes ({} : AdaptiveSession) [true, true, true]).current_difficulty
        = "Beginner" ∧
      (recordOutcomes ({} : AdaptiveSession) [true, true, true]).adaptive_adjustments
        = 0) ∧
    ((recordOutcomes ({} : AdaptiveSession)
          [true, true, true, true]).current_difficulty = "Intermediate" ∧
      (recordOutcomes ({} : AdaptiveSession)
          [true, true, true, true]).adaptive_adjustments = 1) ∧
    (∀ s : AdaptiveSession,
      (processAdaptiveAnswer s true).adaptive_adjustments =
          s.adaptive_adjustments + 1 ↔
        (3 ≤ s.problems_attempted + 1 ∧
          3 ≤ ((s.difficulty_history.drop
            (s.difficulty_history.length - 3)).filter (·.correct)).length)) := by
  refine ⟨by with_unfolding_all decide, by with_unfolding_all decide, ?_⟩
  intro s
  by_cases h1 : s.problems_attempted + 1 < 3
  · simp [processAdaptiveAnswer, shouldIncreaseDifficulty, h1]
    try omega
  · by_cases h2 : 3 ≤ ((s.difficulty_history.drop
        (s.difficulty_history.length - 3)).filter (·.correct)).length
    · simp [processAdaptiveAnswer, shouldIncreaseDifficulty, h1, h2]
      try omega
    · simp [processAdaptiveAnswer, shouldIncreaseDifficulty, h1, h2]
      try omega

set_option maxRecDepth 100000 in
set_option maxHeartbeats 1000000 in
/-- C5 counterexample: with four earned badges, awarding a fifth behaves
differently from the pre-pass-snapshot semantics of the spec: the source counts
the badge appended in the same call (reaching the threshold of 5 and hitting
the undefined-variable error in the milestone constructor), while the pre-pass
variant does not. -/
theorem C5_counterexample_milestone_not_prepass :
    awardAchievement
        { initUserStats with
          badges := ["first_login", "assessment_complete", "first_practice",
            "streak_7"]
          achievements := 4 } "early_bird" ≠
      awardAchievementSpecPrePass
        { initUserStats with
          badges := ["first_login", "assessment_complete", "first_practice",
            "streak_7"]
          achievements := 4 } "early_bird" := by
  with_unfolding_all decide

/-- C5 amended: the milestone check inside `award_achievement` is evaluated
against the badge list including the badge appended in the same call, and
the call reports success exactly when no milestone threshold is reached by
that post-append list (a reached milestone raises the undefined-variable
error in the constructor, which is caught, so the milestone itself is never
awarded while the triggering badge stays). -/
theorem C5_milestone_counts_same_pass (s : UserStats) (aid : String) (pts : ℚ)
    (h1 : achievementPoints aid = some pts) (h2 : aid ∉ s.badges) :
    (awardAchievement s aid).1.badges = s.badges ++ [aid] ∧
    ((awardAchievement s aid).2 = true ↔
      milestoneRaises (s.badges ++ [aid]) = false) := by
  simp only [awardAchievement, h1, if_neg h2]
  constructor
  · split_ifs <;> rfl
  · split_ifs with hm <;> simp [hm]

set_option maxRecDepth 100000 in
set_option maxHeartbeats 1000000 in
theorem C5_milestone_counts_same_pass_witness :
    achievementPoints "early_bird" = some 30 ∧
    "early_bird" ∉ ["first_login", "assessment_complete", "first_practice",
      "streak_7"] ∧
    ((awardAchievement
        { initUserStats with
          badges := ["first_login", "assessment_complete", "first_practice",
            "streak_7"]
          achievements := 4 } "early_bird").1.badges =
      ["first_login", "assessment_complete", "first_practice", "streak_7"]
        ++ ["early_bird"] ∧
    ((awardAchievement
        { initUserStats with
          badges := ["first_login", "assessment_complete", "first_practice",
            "streak_7"]
          achievements := 4 } "early_bird").2 = true ↔
      milestoneRaises (["first_login", "assessment_complete", "first_practice",
        "streak_7"] ++ ["early_bird"]) = false)) :=
  ⟨by with_unfolding_all decide, by with_unfolding_all decide,
    C5_milestone_counts_same_pass _ "early_bird" 30 (by with_unfolding_all decide) (by with_unfolding_all decide)⟩

set_option maxRecDepth 100000 in
set_option maxHeartbeats 1000000 in
/-- C6 counterexample: a `StudyTimeLogged` event with negative duration is
not rejected — it is applied, leaving the state changed (study time becomes
negative), so the claimed `ValidationError` + no-mutation behaviour fails. -/
theorem C6_counterexample_invalid_event_mutates_state :
    updateStats initUserStats 0 (.studyTime (-5)) ≠ initUserStats ∧
    (updateStats initUserStats 0 (.studyTime (-5))).study_time_today = -5 ∧
    (updateStats initUserStats 0 (.studyTime (-5))).total_points = -50 := by
  with_unfolding_all decide

set_option maxRecDepth 100000 in
set_option maxHeartbeats 1000000 in
/-- C6 amended: no validation is performed.  A negative-duration study-time
event is processed normally: the duration is added to `study_time_today` and
`total_study_time` and the (negative) capped time points are added to
`total_points`; a `ProblemSolved` event with the correctness flag missing is
counted as an incorrect answer and still increments `problems_solved`.  No
error is raised and the state is mutated. -/
theorem C6_no_validation_events_applied (d : ℚ) (hd : d < 0) :
    (updateStats initUserStats 0 (.studyTime d)).study_time_today = d ∧
    (updateStats initUserStats 0 (.studyTime d)).total_study_time = d ∧
    (updateStats initUserStats 0 (.studyTime d)).total_points =
      d * timePointsPerHour ∧
    (updateStats initUserStats 0
        (.problemSolved (some "Math") none none)).problems_solved = 1 ∧
    (updateStats initUserStats 0
        (.problemSolved (some "Math") none none)).problems_correct = 0 := by
  have h200 : d * timePointsPerHour ≤ maxDailyPoints := by
    simp only [timePointsPerHour, maxDailyPoints]
    nlinarith
  refine ⟨?_, ?_, ?_, by with_unfolding_all decide, by with_unfolding_all decide⟩
  · unfold updateStats
    simp [initUserStats]
  · unfold updateStats
    simp [initUserStats]
  · unfold updateStats
    simp only [updateLevelAndExperience_total_points, updateStreaks_total_points]
    rw [checkAchievements_noop]
    · simp [initUserStats, min_eq_left h200]
    · simp [initUserStats]
    · simp [initUserStats]
    · rw [calculateDerivedMetrics_overall_progress]
      simp [initUserStats, timePointsPerHour, maxDailyPoints]
      have hA : (d * 10 ⊓ (200 : ℚ)) / 1000 < 0 := by
        apply div_neg_of_neg_of_pos _ (by norm_num)
        exact lt_of_le_of_lt (min_le_left _ _) (by nlinarith)
      have hB : (d * 10 ⊓ (200 : ℚ)) / 1000 ⊓ 1 < 0 :=
        lt_of_le_of_lt (min_le_left _ _) hA
      linarith [hB]
    · simp [initUserStats]

set_option maxRecDepth 100000 in
set_option maxHeartbeats 1000000 in
theorem C6_no_validation_events_applied_witness :
    ((-5 : ℚ) < 0) ∧
    ((updateStats initUserStats 0 (.studyTime (-5))).study_time_today = -5 ∧
      (updateStats initUserStats 0 (.studyTime (-5))).total_study_time = -5 ∧
      (updateStats initUserStats 0 (.studyTime (-5))).total_points =
        (-5) * timePointsPerHour ∧
      (updateStats initUserStats 0
          (.problemSolved (some "Math") none none)).problems_solved = 1 ∧
      (updateStats initUserStats 0
          (.problemSolved (some "Math") none none)).problems_correct = 0) :=
  ⟨by norm_num, C6_no_validation_events_applied (-5) (by norm_num)⟩

set_option maxRecDepth 100000 in
set_option maxHeartbeats 2000000 in
/-- C7: achievement evaluation is idempotent — a second run of
`_check_achievements` on the unchanged resulting state finds nothing new —
and starting from a fresh state, no sequence of `update_stats` calls ever
puts the same achievement id into `badges` twice. -/
theorem C7_evaluate_idempotent_and_badges_nodup :
    (∀ s : UserStats, (checkAchievements (checkAchievements s).1).2 = []) ∧
    (∀ evs : List (ℤ × Event), (applyEvents initUserStats evs).badges.Nodup) := by
  constructor
  · intro s
    have hsettle : ∀ c ∈ achievementChecks,
        c.1 ∈ (checkAchievements s).1.badges ∨
          c.2 (checkAchievements s).1 = false := by
      unfold checkAchievements
      exact checkFold_settles achievementChecks achievementChecks_registered
        achievementChecks_stable (s, [])
    have general : ∀ s1 : UserStats,
        (∀ c ∈ achievementChecks, c.1 ∈ s1.badges ∨ c.2 s1 = false) →
          (checkAchievements s1).2 = [] := by
      intro s1 hs
      unfold checkAchievements
      rw [checkFold_settled_noop achievementChecks (s1, []) hs]
    exact general (checkAchievements s).1 hsettle
  · have key : ∀ (l : List (ℤ × Event)) (s : UserStats),
        s.badges.Nodup → (applyEvents s l).badges.Nodup := by
      intro l
      unfold applyEvents
      induction l with
      | nil => intro s h; simpa using h
      | cons p rest ih =>
        intro s h
        simp only [List.foldl_cons]
        exact ih (updateStats s p.1 p.2) (updateStats_badges_nodup s p.1 p.2 h)
    intro evs
    exact key evs initUserStats (by simp [initUserStats])

set_option maxRecDepth 100000 in
set_option maxHeartbeats 4000000 in
/-- C8 counterexample: after ten correct Beginner Math problems from a fresh
state, `total_points` is 149 (24 problem points plus 75 for `progress_25`
and 50 for `problem_solver_10`), not the 24 computed by the claimed formula
for problem points alone. -/
theorem C8_counterexample_total_points_not_24 :
    (applyEvents initUserStats (List.replicate 10
        ((0 : ℤ), Event.problemSolved (some "Math") (some true)
          (some "Beginner")))).total_points ≠ 24 := by
  with_unfolding_all decide

set_option maxRecDepth 100000 in
set_option maxHeartbeats 4000000 in
/-- C8 amended: ten correct Beginner Math problems from a fresh state yield
`problemsSolved = 10`, `accuracyRate = 100`, `problem_solver_10` among the
badges, and `totalPoints = 149`: the 24 problem points from the documented
formula (10 × 2 × 1.2) plus 125 achievement points awarded along the way
(75 for `progress_25` after the first problem, 50 for `problem_solver_10`
at the tenth). -/
theorem C8_ten_problem_scenario :
    (applyEvents initUserStats (List.replicate 10
        ((0 : ℤ), Event.problemSolved (some "Math") (some true)
          (some "Beginner")))).problems_solved = 10 ∧
    (applyEvents initUserStats (List.replicate 10
        ((0 : ℤ), Event.problemSolved (some "Math") (some true)
          (some "Beginner")))).accuracy_rate = 100 ∧
    "problem_solver_10" ∈ (applyEvents initUserStats (List.replicate 10
        ((0 : ℤ), Event.problemSolved (some "Math") (some true)
          (some "Beginner")))).badges ∧
    (applyEvents initUserStats (List.replicate 10
        ((0 : ℤ), Event.problemSolved (some "Math") (some true)
          (some "Beginner")))).total_points = 149 := by
  with_unfolding_all decide

theorem updateStats_acc_invariant (s : UserStats) (t : ℤ) (e : Event)
    (hle : s.problems_correct ≤ s.problems_solved)
    (hz : s.problems_solved = 0 → s.accuracy_rate = 0)
    (hnz : s.problems_solved ≠ 0 → s.accuracy_rate =
      ((s.problems_correct : ℚ) / (s.problems_solved : ℚ)) * 100) :
    (updateStats s t e).problems_correct ≤ (updateStats s t e).problems_solved ∧
    ((updateStats s t e).problems_solved = 0 →
      (updateStats s t e).accuracy_rate = 0) ∧
    ((updateStats s t e).problems_solved ≠ 0 →
      (updateStats s t e).accuracy_rate =
        (((updateStats s t e).problems_correct : ℚ) /
          ((updateStats s t e).problems_solved : ℚ)) * 100) := by
  cases e with
  | problemSolved subj c d =>
    refine ⟨?_, by simp [updateStats], ?_⟩
    · simp only [updateStats]
      simp
      split_ifs <;> omega
    · intro hne
      simp [updateStats]
  | sessionCompleted subj dur np pe =>
    exact ⟨by simp [updateStats, hle], by simpa [updateStats] using hz,
      by simpa [updateStats] using hnz⟩
  | studyTime d =>
    exact ⟨by simp [updateStats, hle], by simpa [updateStats] using hz,
      by simpa [updateStats] using hnz⟩
  | login =>
    exact ⟨by simp [updateStats, hle], by simpa [updateStats] using hz,
      by simpa [updateStats] using hnz⟩
  | other =>
    exact ⟨by simp [updateStats, hle], by simpa [updateStats] using hz,
      by simpa [updateStats] using hnz⟩

/-- C9: for every state reachable from the fresh state by `update_stats`
calls, `problemsCorrect ≤ problemsSolved`, the accuracy rate equals
`100 * problemsCorrect / problemsSolved` (0 when nothing is solved), and it
stays within `[0, 100]`. -/
theorem C9_accuracy_invariant (evs : List (ℤ × Event)) :
    (applyEvents initUserStats evs).problems_correct ≤
      (applyEvents initUserStats evs).problems_solved ∧
    (applyEvents initUserStats evs).accuracy_rate =
      (if (applyEvents initUserStats evs).problems_solved = 0 then 0
       else (((applyEvents initUserStats evs).problems_correct : ℚ) /
         ((applyEvents initUserStats evs).problems_solved : ℚ)) * 100) ∧
    0 ≤ (applyEvents initUserStats evs).accuracy_rate ∧
    (applyEvents initUserStats evs).accuracy_rate ≤ 100 := by
  have key : ∀ (l : List (ℤ × Event)) (s : UserStats),
      s.problems_correct ≤ s.problems_solved →
      (s.problems_solved = 0 → s.accuracy_rate = 0) →
      (s.problems_solved ≠ 0 → s.accuracy_rate =
        ((s.problems_correct : ℚ) / (s.problems_solved : ℚ)) * 100) →
      (applyEvents s l).problems_correct ≤ (applyEvents s l).problems_solved ∧
      ((applyEvents s l).problems_solved = 0 →
        (applyEvents s l).accuracy_rate = 0) ∧
      ((applyEvents s l).problems_solved ≠ 0 →
        (applyEvents s l).accuracy_rate =
          (((applyEvents s l).problems_correct : ℚ) /
            ((applyEvents s l).problems_solved : ℚ)) * 100) := by
    intro l
    unfold applyEvents
    induction l with
    | nil =>
      intro s h1 h2 h3
      exact ⟨by simpa using h1, by simpa using h2, by simpa using h3⟩
    | cons p rest ih =>
      intro s h1 h2 h3
      simp only [List.foldl_cons]
      obtain ⟨g1, g2, g3⟩ := updateStats_acc_invariant s p.1 p.2 h1 h2 h3
      exact ih (updateStats s p.1 p.2) g1 g2 g3
  obtain ⟨h1, h2, h3⟩ := key evs initUserStats (by simp [initUserStats])
    (fun _ => by simp [initUserStats]) (by simp [initUserStats])
  by_cases hzero : (applyEvents initUserStats evs).problems_solved = 0
  · rw [if_pos hzero, h2 hzero]
    simp [h2 hzero, h1]
  · have hacc := h3 hzero
    rw [if_neg hzero, hacc]
    have hps : (0 : ℚ) < (applyEvents initUserStats evs).problems_solved := by
      exact_mod_cast Nat.pos_of_ne_zero hzero
    have hdiv : ((applyEvents initUserStats evs).problems_correct : ℚ) /
        ((applyEvents initUserStats evs).problems_solved : ℚ) ≤ 1 := by
      rw [div_le_one hps]
      exact_mod_cast h1
    refine ⟨h1, rfl, by positivity, by linarith⟩

/-- C10: `_update_time_stats` adds the capped time points to `total_points`
only; `experience_points` is untouched, so the level derived from experience
points is unchanged by the time-point award itself. -/
theorem C10_time_points_never_touch_experience (s : UserStats) (t : ℚ) :
    (updateTimeStats s t).experience_points = s.experience_points ∧
    (updateTimeStats s t).total_points =
      s.total_points + min (t * timePointsPerHour) maxDailyPoints ∧
    levelFromXP (updateTimeStats s t).experience_points =
      levelFromXP s.experience_points :=
  ⟨rfl, rfl, rfl⟩

end Edutech
